import Mathlib

/-!
Verification of the pyinfra-orbstack connector
(src/pyinfra_orbstack/connector.py) against its specification.

The Python source is shallowly embedded: each effectful subprocess call is
modelled by an oracle value describing its outcome (an exit code with captured
output, or a raised exception), and each connector function becomes a pure
Lean function from those oracles to the value the Python function returns,
together with the observable trace (number of process invocations, sleeps,
log lines) that the specification talks about.
-/

namespace PyinfraOrbstack

/-! ## Retrying Process Executor (`OrbStackConnector._execute_with_retry`)

Embeds connector.py lines 44-138.  A `CompletedProcess` is the result of one
`subprocess.run` call; an attempt may instead raise (`subprocess.TimeoutExpired`
or any other exception), which the source handles in two textually identical
`except` arms (lines 114-133). -/

/-- Model of `subprocess.CompletedProcess` as used by the connector:
exit code plus captured text output. -/
structure CompletedProcess where
  returncode : Int
  stdout : String
  stderr : String
  deriving Repr, DecidableEq

/-- An exception raised by the process call itself, before a result exists.
The source distinguishes `subprocess.TimeoutExpired` (line 114) from any
other `Exception` (line 124) but handles both identically. -/
inductive ExecException where
  | timeoutExpired (msg : String)
  | other (msg : String)
  deriving Repr, DecidableEq

/-- Outcome of one `subprocess.run` attempt: either a completed process
(any exit code) or a raised exception. -/
inductive AttemptOutcome where
  | ok (r : CompletedProcess)
  | exn (e : ExecException)
  deriving Repr, DecidableEq

/-- Overall outcome of `_execute_with_retry`: the Python function either
returns a `CompletedProcess` or lets an exception propagate. -/
inductive ExecOutcome where
  | returned (r : CompletedProcess)
  | raised (e : ExecException)
  deriving Repr, DecidableEq

/-- What one call to `_execute_with_retry` did: its outcome, how many times
it invoked `subprocess.run`, and how many times it slept between attempts. -/
structure RetryTrace where
  outcome : ExecOutcome
  invocations : Nat
  sleeps : Nat
  deriving Repr, DecidableEq

/-- The fixed transient-failure vocabulary of connector.py lines 84-100. -/
def transientKeywords : List String :=
  ["timeout", "connection", "network", "tls", "handshake", "download",
   "cdn", "http", "https", "tcp", "dns", "missing ip address",
   "didn't start", "setup", "machine"]

/-- Contiguous-substring test on character lists, modelling the Python
string membership operator `needle in hay`. -/
def charsContain (needle : List Char) : List Char → Bool
  | [] => needle.isEmpty
  | c :: cs => needle.isPrefixOf (c :: cs) || charsContain needle cs

/-- Lines 81-101: lowercase the stderr text and test whether any keyword
occurs in it as a substring (Python `keyword in error_msg`).  Lowercasing is
done per character, matching `str.lower` on the ASCII texts involved. -/
def isNetworkErrorStderr (stderr : String) : Bool :=
  transientKeywords.any fun keyword =>
    charsContain keyword.toList (stderr.toList.map Char.toLower)

/-- The attempt loop of lines 65-133.  `attempts i` is the outcome of the
i-th `subprocess.run` call; `attempt` is the current loop index and
`remaining = max_retries - attempt`, so the loop guard `attempt < max_retries`
of lines 104, 115 and 125 becomes `remaining > 0`.  Every loop iteration
either returns, raises, or continues to the next attempt, so the fallback
after the loop (lines 136-138, marked no-cover in the source) is unreachable
and needs no counterpart here. -/
def executeLoop (attempts : Nat → AttemptOutcome) (isNetworkOperation : Bool)
    (attempt : Nat) : Nat → RetryTrace
  | 0 =>
    match attempts attempt with
    | .ok r => ⟨.returned r, 1, 0⟩
    | .exn e => ⟨.raised e, 1, 0⟩
  | remaining + 1 =>
    match attempts attempt with
    | .ok r =>
      if r.returncode = 0 then ⟨.returned r, 1, 0⟩
      else if isNetworkErrorStderr r.stderr || isNetworkOperation then
        let t := executeLoop attempts isNetworkOperation (attempt + 1) remaining
        ⟨t.outcome, t.invocations + 1, t.sleeps + 1⟩
      else ⟨.returned r, 1, 0⟩
    | .exn _ =>
      let t := executeLoop attempts isNetworkOperation (attempt + 1) remaining
      ⟨t.outcome, t.invocations + 1, t.sleeps + 1⟩

/-- Entry point of `_execute_with_retry` for a given `max_retries`
(`maxRetries : Nat`, matching the documented contract `maxRetries >= 0`). -/
def executeWithRetry (attempts : Nat → AttemptOutcome) (maxRetries : Nat)
    (isNetworkOperation : Bool) : RetryTrace :=
  executeLoop attempts isNetworkOperation 0 maxRetries

/-! ## Command Shape Normalizer (`OrbStackConnector.run_shell_command`)

Embeds the command-shape dispatch and sudo composition of connector.py
lines 276-346.  A command with a `bits` attribute is modelled as the list of
its stringified bits.  The unwrapped branch (lines 301-332) delegates to
pyinfra's `make_unix_command_for_host`, which lives outside this repository;
it is therefore abstracted as a parameter `frameworkWrap` standing for that
call followed by `shlex.split`. -/

/-- Lines 279-284: a command is treated as pre-wrapped exactly when it has
at least two bits and its first bit stringifies to "sh" or "bash". -/
def isPrewrapped (bits : List String) : Bool :=
  2 ≤ bits.length &&
    (match bits.head? with
     | some firstBit => firstBit = "sh" || firstBit = "bash"
     | none => false)

/-- Lines 294-298: sudo token composition for pre-wrapped commands. -/
def sudoWrap (useSudo : Bool) (sudoUser : Option String) (bits : List String) :
    List String :=
  if useSudo then
    match sudoUser with
    | some u => "sudo" :: "-H" :: "-u" :: u :: bits
    | none => "sudo" :: "-H" :: bits
  else bits

/-- Lines 286-332: resolve the argument vector for the command itself.
Pre-wrapped commands pass through with optional sudo tokens prepended;
anything else goes to the framework assembly `frameworkWrap`. -/
def resolveCommandArgs (frameworkWrap : List String → List String)
    (bits : List String) (useSudo : Bool) (sudoUser : Option String) :
    List String :=
  if isPrewrapped bits then sudoWrap useSudo sudoUser bits
  else frameworkWrap bits

/-- Lines 334-346: the full argv handed to the Retrying Process Executor,
with the base prefix and optional user/workdir flags. -/
def buildOrbctlArgv (vmName : String) (user workdir : Option String)
    (commandArgs : List String) : List String :=
  ["orbctl", "run", "-m", vmName]
    ++ (match user with | some u => ["-u", u] | none => [])
    ++ (match workdir with | some w => ["-w", w] | none => [])
    ++ commandArgs

/-! ## Host Discovery (`OrbStackConnector.make_names_data`)

Embeds connector.py lines 140-202.  A parsed machine record is modelled by
the fields the source actually reads through `dict.get`; an absent key is
`none` (the nested `vm.get("image", {}).get(..., default)` chain collapses
to `Option.getD`).  The combined effect of the `orbctl list` subprocess
(`check=True`) and `json.loads` is an oracle: either a list of records, or
one of the two exceptions the source catches on line 199. -/

/-- The fields of one machine record that `make_names_data` reads. -/
structure VmJson where
  name : Option String := none
  id : Option String := none
  state : Option String := none
  imageArch : Option String := none
  imageDistro : Option String := none
  imageVersion : Option String := none
  configDefaultUsername : Option String := none
  deriving Repr, DecidableEq

/-- The attribute map built on lines 169-178 (`vm_data`). -/
structure VmData where
  orbstack_vm : Bool
  vm_name : String
  vm_id : String
  vm_status : String
  vm_distro : String
  vm_version : String
  vm_arch : String
  vm_username : String
  deriving Repr, DecidableEq

/-- Lines 169-178: project a record into the PyInfra attribute map. -/
def makeVmData (vm : VmJson) : VmData where
  orbstack_vm := true
  vm_name := vm.name.getD ""
  vm_id := vm.id.getD ""
  vm_status := vm.state.getD "unknown"
  vm_distro := vm.imageDistro.getD ""
  vm_version := vm.imageVersion.getD ""
  vm_arch := vm.imageArch.getD ""
  vm_username := vm.configDefaultUsername.getD ""

/-- Lines 180-195: derive the group list, appending conditionally in source
order (base, run-state, architecture, distro). -/
def makeGroups (vm : VmJson) : List String :=
  let groups := ["orbstack"]
  let groups :=
    if vm.state = some "running" then groups ++ ["orbstack_running"]
    else if vm.state = some "stopped" then groups ++ ["orbstack_stopped"]
    else groups
  let groups :=
    if vm.imageArch = some "arm64" then groups ++ ["orbstack_arm64"]
    else if vm.imageArch = some "amd64" then groups ++ ["orbstack_amd64"]
    else groups
  let distro := vm.imageDistro.getD ""
  if distro ≠ "" then groups ++ ["orbstack_" ++ distro] else groups

/-- Lines 164-166: the hostname filter.  Python `if hostname and
vm_name != hostname` skips the record only when the filter is truthy
(present and non-empty) and the name differs. -/
def skipVm (hostname : Option String) (vmName : String) : Bool :=
  match hostname with
  | none => false
  | some h => h ≠ "" && vmName ≠ h

/-- One loop iteration (lines 163-197): either skipped or yielded. -/
def vmEntry (hostname : Option String) (vm : VmJson) :
    Option (String × VmData × List String) :=
  let vmName := vm.name.getD ""
  if skipVm hostname vmName then none
  else some (vmName, makeVmData vm, makeGroups vm)

/-- The two exception classes caught on line 199. -/
inductive DiscoveryError where
  | calledProcessError (msg : String)
  | jsonDecodeError (msg : String)
  deriving Repr, DecidableEq

/-- Render for the error log line (line 201). -/
def DiscoveryError.describe : DiscoveryError → String
  | .calledProcessError msg => msg
  | .jsonDecodeError msg => msg

/-- Lines 153-202: the whole generator, as the list of yielded triples plus
the list of log lines printed.  `listCall` is the oracle for the
`orbctl list` invocation combined with JSON parsing: a non-zero exit raises
`CalledProcessError` (because of `check=True`), invalid stdout raises
`JSONDecodeError`, and both are caught, logged and turned into an empty
yield sequence. -/
def make_names_data (listCall : Except DiscoveryError (List VmJson))
    (hostname : Option String) :
    List (String × VmData × List String) × List String :=
  match listCall with
  | .error e => ([], ["Error listing OrbStack VMs: " ++ e.describe])
  | .ok vms => (vms.filterMap (vmEntry hostname), [])

/-! ## Connection Manager (`OrbStackConnector.connect`)

Embeds connector.py lines 204-241.  The `orbctl info` call (`check=True`)
either raises `CalledProcessError` (non-zero exit) or yields a stdout whose
`json.loads` parse either succeeds or raises `JSONDecodeError`.  The only
exception class caught by the function is `CalledProcessError` (line 239). -/

/-- The part of the parsed `orbctl info` JSON that `connect` reads:
`vm_info.get("record", \x7b\x7d).get("state")`. -/
structure VmInfo where
  recordState : Option String := none
  deriving Repr, DecidableEq

/-- Oracle for the `orbctl info` invocation combined with JSON parsing:
a non-zero exit raises `CalledProcessError`; on a zero exit the stdout
either parses to a `VmInfo` or `json.loads` raises `JSONDecodeError`. -/
inductive InfoCall where
  | calledProcessError (msg : String)
  | ok (parse : Except String VmInfo)
  deriving Repr

/-- Oracle for the `orbctl start` invocation (`check=True`): zero exit, or
`CalledProcessError`. -/
inductive StartCall where
  | ok
  | calledProcessError (msg : String)
  deriving Repr, DecidableEq

/-- An exception that escapes `connect` to its caller. -/
inductive ConnectRaised where
  | jsonDecodeError (msg : String)
  deriving Repr, DecidableEq

/-- Lines 204-241: `connect` returns a boolean, except that a JSON decode
failure on a zero-exit info call is not caught by the
`except subprocess.CalledProcessError` clause and propagates.  An absent or
empty VM name is falsy in Python (`if not vm_name`) and short-circuits to
`False` before any subprocess is spawned. -/
def connect (vmName : Option String) (info : InfoCall) (start : StartCall) :
    Except ConnectRaised Bool :=
  match vmName with
  | none => .ok false
  | some n =>
    if n = "" then .ok false
    else
      match info with
      | .calledProcessError _ => .ok false
      | .ok (.error msg) => .error (.jsonDecodeError msg)
      | .ok (.ok vmInfo) =>
        if vmInfo.recordState = some "running" then .ok true
        else
          match start with
          | .ok => .ok true
          | .calledProcessError _ => .ok false

/-! ## Privileged file download (`OrbStackConnector.get_file`, sudo path)

Embeds connector.py lines 549-609.  The four effectful steps are the
privileged copy to a temp path (line 564, via `run_shell_command`), the
best-effort chmod of the temp copy (line 574), the `orbctl pull` from the
temp path (line 586, `check=True`, `CalledProcessError` caught on line 590),
and the best-effort removal of the temp file (lines 594 and 602).  Each is
modelled by a success bit; the embedding returns the boolean result, the
ordered list of steps attempted, and the warning/error log lines printed. -/

/-- Success bits for the four effectful steps of the privileged download. -/
structure GetFileEnv where
  cpOk : Bool
  chmodOk : Bool
  pullOk : Bool
  rmOk : Bool
  deriving Repr, DecidableEq

/-- The externally visible steps of the privileged download. -/
inductive FileStep where
  | cp
  | chmod
  | pull
  | rm
  deriving Repr, DecidableEq

/-- Lines 549-609: the sudo branch of `get_file`.  Step 1 failing returns
`False` at once (line 567); a chmod failure only logs a warning (line 576);
a pull failure runs the cleanup removal and returns `False` (lines 590-595);
a cleanup failure after a successful pull only logs a warning (line 603). -/
def getFileSudo (env : GetFileEnv) : Bool × List FileStep × List String :=
  if !env.cpOk then
    (false, [.cp], ["Error copying file from source"])
  else
    let chmodLog : List String :=
      if env.chmodOk then [] else ["Warning: Failed to make temp file readable"]
    if !env.pullOk then
      (false, [.cp, .chmod, .pull, .rm],
        chmodLog ++ ["Error downloading file from temp location"])
    else
      let rmLog : List String :=
        if env.rmOk then [] else ["Warning: Failed to clean up temp file"]
      (true, [.cp, .chmod, .pull, .rm], chmodLog ++ rmLog)

/-! ## Per-field group computations

The specification states that the run-state, architecture and distro tags
are each computed independently of the other fields.  These three functions
isolate the per-field computation that lines 180-195 perform inline; the
theorem for that claim proves `makeGroups` equal to their concatenation. -/

/-- The run-state tag as a function of the `state` field alone. -/
def stateGroups (state : Option String) : List String :=
  if state = some "running" then ["orbstack_running"]
  else if state = some "stopped" then ["orbstack_stopped"]
  else []

/-- The architecture tag as a function of the `image.arch` field alone. -/
def archGroups (arch : Option String) : List String :=
  if arch = some "arm64" then ["orbstack_arm64"]
  else if arch = some "amd64" then ["orbstack_amd64"]
  else []

/-- The distro tag as a function of the `image.distro` field alone. -/
def distroGroups (distro : Option String) : List String :=
  if distro.getD "" ≠ "" then ["orbstack_" ++ distro.getD ""] else []

/-! # Theorems -/

/-- Auxiliary invariant for the exhausted-retry claim: when every attempt
completes with a non-zero exit code and every failure is classified
retryable, the attempt loop runs through all its iterations and returns the
final failed result. -/
theorem executeLoop_all_failed_retryable
    (attempts : Nat → AttemptOutcome) (r : Nat → CompletedProcess)
    (isNetOp : Bool)
    (hok : ∀ i, attempts i = .ok (r i))
    (hfail : ∀ i, (r i).returncode ≠ 0)
    (hretry : ∀ i, isNetworkErrorStderr (r i).stderr = true ∨ isNetOp = true) :
    ∀ remaining attempt,
      executeLoop attempts isNetOp attempt remaining =
        ⟨.returned (r (attempt + remaining)), remaining + 1, remaining⟩ := by
  intro remaining
  induction remaining with
  | zero =>
    intro attempt
    simp [executeLoop, hok attempt]
  | succ n ih =>
    intro attempt
    have hc : (isNetworkErrorStderr (r attempt).stderr || isNetOp) = true := by
      rcases hretry attempt with h | h <;> simp [h]
    have harith : attempt + 1 + n = attempt + (n + 1) := by omega
    simp [executeLoop, hok attempt, hfail attempt, hc, ih (attempt + 1), harith]

/-- C1: for every command and every maxRetries = N, if every process
invocation completes with a non-zero exit code and each failure is
retryable (transient stderr keyword or the network-operation flag), the
Retrying Process Executor performs exactly N + 1 process invocations and
returns the final failed result as a normal return value, never raising. -/
theorem retry_exhaustion_returns_final_failure
    (attempts : Nat → AttemptOutcome) (r : Nat → CompletedProcess)
    (maxRetries : Nat) (isNetOp : Bool)
    (hok : ∀ i, attempts i = .ok (r i))
    (hfail : ∀ i, (r i).returncode ≠ 0)
    (hretry : ∀ i, isNetworkErrorStderr (r i).stderr = true ∨ isNetOp = true) :
    executeWithRetry attempts maxRetries isNetOp =
      ⟨.returned (r maxRetries), maxRetries + 1, maxRetries⟩ := by
  have h := executeLoop_all_failed_retryable attempts r isNetOp hok hfail hretry
    maxRetries 0
  simpa [executeWithRetry] using h

/-- Witness for C1, matching concrete scenario D of the specification: a
network-classified command failing with stderr "network timeout" under
maxRetries = 1 yields exactly 2 invocations and a returned failed result. -/
theorem retry_exhaustion_returns_final_failure_witness :
    executeWithRetry (fun _ => .ok ⟨1, "", "network timeout"⟩) 1 true =
      ⟨.returned ⟨1, "", "network timeout"⟩, 2, 1⟩ :=
  retry_exhaustion_returns_final_failure
    (fun _ => .ok ⟨1, "", "network timeout"⟩)
    (fun _ => ⟨1, "", "network timeout"⟩) 1 true
    (fun _ => rfl) (by intro i; show (1 : Int) ≠ 0; decide) (fun _ => Or.inr rfl)

/-- C2: a first attempt that fails with a non-zero exit code, no transient
keyword in stderr and the network-operation flag off is returned at once:
one invocation, no sleep, no retry, whatever maxRetries is. -/
theorem nonnetwork_failure_single_attempt
    (attempts : Nat → AttemptOutcome) (r : CompletedProcess) (maxRetries : Nat)
    (hok : attempts 0 = .ok r)
    (hfail : r.returncode ≠ 0)
    (hnn : isNetworkErrorStderr r.stderr = false) :
    executeWithRetry attempts maxRetries false = ⟨.returned r, 1, 0⟩ := by
  cases maxRetries with
  | zero => simp [executeWithRetry, executeLoop, hok]
  | succ n => simp [executeWithRetry, executeLoop, hok, hfail, hnn]

/-- Witness for C2: stderr "command not found" with maxRetries = 5 still
gives a single invocation and no sleep. -/
theorem nonnetwork_failure_single_attempt_witness :
    executeWithRetry (fun _ => .ok ⟨127, "", "command not found"⟩) 5 false =
      ⟨.returned ⟨127, "", "command not found"⟩, 1, 0⟩ :=
  nonnetwork_failure_single_attempt
    (fun _ => .ok ⟨127, "", "command not found"⟩)
    ⟨127, "", "command not found"⟩ 5 rfl (by decide) (by decide)

/-- Auxiliary invariant for the exception claim: when every attempt raises,
the attempt loop retries through all its iterations and re-raises the
exception of the last attempt. -/
theorem executeLoop_all_raise
    (attempts : Nat → AttemptOutcome) (e : Nat → ExecException)
    (isNetOp : Bool)
    (hexn : ∀ i, attempts i = .exn (e i)) :
    ∀ remaining attempt,
      executeLoop attempts isNetOp attempt remaining =
        ⟨.raised (e (attempt + remaining)), remaining + 1, remaining⟩ := by
  intro remaining
  induction remaining with
  | zero =>
    intro attempt
    simp [executeLoop, hexn attempt]
  | succ n ih =>
    intro attempt
    have harith : attempt + 1 + n = attempt + (n + 1) := by omega
    simp [executeLoop, hexn attempt, ih (attempt + 1), harith]

/-- C3: if the process call raises on every one of the maxRetries + 1
attempts, the Retrying Process Executor re-raises the exception of the
final attempt instead of returning a synthesized result; and in general its
outcome is exactly one of success result, failed result, or raised
exception. -/
theorem exception_exhaustion_reraises
    (attempts : Nat → AttemptOutcome) (e : Nat → ExecException)
    (maxRetries : Nat) (isNetOp : Bool)
    (hexn : ∀ i, attempts i = .exn (e i)) :
    executeWithRetry attempts maxRetries isNetOp =
      ⟨.raised (e maxRetries), maxRetries + 1, maxRetries⟩ ∧
    ∀ (g : Nat → AttemptOutcome) (m : Nat) (b : Bool),
      (∃ res, (executeWithRetry g m b).outcome = .returned res ∧
        res.returncode = 0) ∨
      (∃ res, (executeWithRetry g m b).outcome = .returned res ∧
        res.returncode ≠ 0) ∨
      (∃ ex, (executeWithRetry g m b).outcome = .raised ex) := by
  constructor
  · have h := executeLoop_all_raise attempts e isNetOp hexn maxRetries 0
    simpa [executeWithRetry] using h
  · intro g m b
    cases hres : (executeWithRetry g m b).outcome with
    | returned res =>
      by_cases hrc : res.returncode = 0
      · exact Or.inl ⟨res, rfl, hrc⟩
      · exact Or.inr (Or.inl ⟨res, rfl, hrc⟩)
    | raised ex => exact Or.inr (Or.inr ⟨ex, rfl⟩)

/-- Witness for C3: a timeout raised on each of 3 attempts (maxRetries = 2)
propagates the last timeout after 3 invocations. -/
theorem exception_exhaustion_reraises_witness :
    executeWithRetry (fun _ => .exn (.timeoutExpired "orbctl timed out")) 2
        false =
      ⟨.raised (.timeoutExpired "orbctl timed out"), 3, 2⟩ :=
  (exception_exhaustion_reraises
    (fun _ => .exn (.timeoutExpired "orbctl timed out"))
    (fun _ => .timeoutExpired "orbctl timed out") 2 false (fun _ => rfl)).1

/-- C4: a pre-wrapped shell command executed with sudo requested resolves
to the sudo tokens followed immediately by the original shell-invocation
parts unchanged; the sudo tokens are prepended before the shell triple and
never appear inside the quoted command text. -/
theorem prewrapped_sudo_composition
    (frameworkWrap : List String → List String) (bits : List String)
    (sudoUser : Option String)
    (hpre : isPrewrapped bits = true) :
    resolveCommandArgs frameworkWrap bits true sudoUser =
      (match sudoUser with
       | some u => ["sudo", "-H", "-u", u]
       | none => ["sudo", "-H"]) ++ bits := by
  cases sudoUser <;> simp [resolveCommandArgs, hpre, sudoWrap]

/-- Witness for C4, matching concrete scenario B of the specification: the
sudo tokens land before the sh -c triple, with and without a sudo user. -/
theorem prewrapped_sudo_composition_witness :
    resolveCommandArgs id ["sh", "-c", "! test -e /x && echo MISSING"] true
        (some "deploy") =
      ["sudo", "-H", "-u", "deploy", "sh", "-c",
       "! test -e /x && echo MISSING"] ∧
    resolveCommandArgs id ["sh", "-c", "! test -e /x && echo MISSING"] true
        none =
      ["sudo", "-H", "sh", "-c", "! test -e /x && echo MISSING"] :=
  ⟨prewrapped_sudo_composition id ["sh", "-c", "! test -e /x && echo MISSING"]
      (some "deploy") (by decide),
   prewrapped_sudo_composition id ["sh", "-c", "! test -e /x && echo MISSING"]
      none (by decide)⟩

/-- C10: a multi-part command counts as pre-wrapped exactly when its first
part is the literal string "sh" or "bash"; other shell spellings such as
"/bin/sh", "zsh" or "dash" take the unwrapped branch and are handed to the
framework command assembly instead of passing through unchanged. -/
theorem prewrap_requires_literal_sh_or_bash
    (frameworkWrap : List String → List String) (useSudo : Bool)
    (sudoUser : Option String) (bits : List String)
    (hun : isPrewrapped bits = false) :
    (∀ l : List String, isPrewrapped l = true ↔
      2 ≤ l.length ∧ (l.head? = some "sh" ∨ l.head? = some "bash")) ∧
    isPrewrapped ["/bin/sh", "-c", "echo hi"] = false ∧
    isPrewrapped ["zsh", "-c", "echo hi"] = false ∧
    isPrewrapped ["dash", "-c", "echo hi"] = false ∧
    resolveCommandArgs frameworkWrap bits useSudo sudoUser =
      frameworkWrap bits := by
  refine ⟨?_, by decide, by decide, by decide,
    by simp [resolveCommandArgs, hun]⟩
  intro l
  cases l with
  | nil => simp [isPrewrapped]
  | cons a t => simp [isPrewrapped]

/-- Witness for C10: a command whose first part is "/bin/sh" is routed to
the framework assembly. -/
theorem prewrap_requires_literal_sh_or_bash_witness :
    resolveCommandArgs (fun l => "ASSEMBLED" :: l)
        ["/bin/sh", "-c", "echo hi"] true none =
      "ASSEMBLED" :: ["/bin/sh", "-c", "echo hi"] :=
  (prewrap_requires_literal_sh_or_bash (fun l => "ASSEMBLED" :: l) true none
    ["/bin/sh", "-c", "echo hi"] (by decide)).2.2.2.2

/-- C5 counterexample: a discovered record whose state value is the
unrecognized string "paused" carries the raw text "paused" in its status
field, which is outside the claimed enum of running, stopped and unknown. -/
theorem vm_status_enum_counterexample :
    ((make_names_data
        (.ok [{ name := some "web", state := some "paused" }]) none).1.map
      fun t => t.2.1.vm_status) = ["paused"] ∧
    ("paused" : String) ∉ (["running", "stopped", "unknown"] : List String) := by
  constructor
  · rfl
  · decide

/-- C5 as amended: for every record yielded by Host Discovery, an absent
state value yields the status "unknown", and a present state value is
stored verbatim (so unrecognized strings pass through as the raw text);
discovery is a total function of the parsed records, raising nothing. -/
theorem vm_status_passthrough
    (vm : VmJson) (hostname : Option String)
    (name : String) (data : VmData) (groups : List String)
    (hmem : (name, data, groups) ∈ (make_names_data (.ok [vm]) hostname).1) :
    (vm.state = none → data.vm_status = "unknown") ∧
    (∀ s, vm.state = some s → data.vm_status = s) := by
  by_cases hs : skipVm hostname (vm.name.getD "") = true
  · simp [make_names_data, vmEntry, hs] at hmem
  · simp [make_names_data, vmEntry, hs] at hmem
    obtain ⟨-, hdata, -⟩ := hmem
    subst hdata
    constructor
    · intro h
      simp [makeVmData, h]
    · intro s h
      simp [makeVmData, h]

/-- Witness for C5 as amended: an absent state gives "unknown", a "paused"
state gives "paused". -/
theorem vm_status_passthrough_witness :
    (makeVmData { name := some "a" }).vm_status = "unknown" ∧
    (makeVmData { name := some "b", state := some "paused" }).vm_status =
      "paused" :=
  ⟨(vm_status_passthrough { name := some "a" } none "a"
      (makeVmData { name := some "a" })
      (makeGroups { name := some "a" }) (by decide)).1 rfl,
   (vm_status_passthrough { name := some "b", state := some "paused" } none
      "b" (makeVmData { name := some "b", state := some "paused" })
      (makeGroups { name := some "b", state := some "paused" })
      (by decide)).2 "paused" rfl⟩

/-- C6: when the list invocation exits non-zero or its stdout is not valid
JSON, Host Discovery yields no host records and does not raise, and the
failure is logged. -/
theorem discovery_error_yields_empty
    (e : DiscoveryError) (hostname : Option String) :
    (make_names_data (.error e) hostname).1 = [] ∧
    (make_names_data (.error e) hostname).2 ≠ [] := by
  cases e <;> simp [make_names_data]

/-- C8: the concrete discovery input of scenario A yields exactly one
record tagged with the base, running, arm64 and ubuntu groups; and for
every record the base tag is present while the run-state, architecture and
distro tags are each a function of their own field alone. -/
theorem discovery_scenario_and_group_independence :
    make_names_data
        (.ok [{ name := some "web", state := some "running",
                imageArch := some "arm64", imageDistro := some "ubuntu" }])
        none =
      ([("web",
         ⟨true, "web", "", "running", "ubuntu", "", "arm64", ""⟩,
         ["orbstack", "orbstack_running", "orbstack_arm64",
          "orbstack_ubuntu"])], []) ∧
    (∀ vm : VmJson, makeGroups vm =
      "orbstack" ::
        (stateGroups vm.state ++ archGroups vm.imageArch ++
          distroGroups vm.imageDistro)) ∧
    (∀ vm : VmJson, "orbstack" ∈ makeGroups vm) := by
  refine ⟨by rfl, ?_, ?_⟩
  · intro vm
    simp only [makeGroups, stateGroups, archGroups, distroGroups]
    split_ifs <;> simp
  · intro vm
    simp only [makeGroups]
    split_ifs <;> simp

/-- C7: in the privileged download, a failed first copy step returns false
with no further step attempted; the boolean result equals the conjunction
of the copy and pull outcomes (so chmod and cleanup failures never change
it); a failed pull still attempts the cleanup removal before returning
false; and a chmod failure, as well as a removal failure after a
successful pull, is logged as a warning. -/
theorem get_file_sudo_failure_policy (env : GetFileEnv) :
    (env.cpOk = false →
      getFileSudo env =
        (false, [FileStep.cp], ["Error copying file from source"])) ∧
    (getFileSudo env).1 = (env.cpOk && env.pullOk) ∧
    (env.cpOk = true → env.pullOk = false →
      (getFileSudo env).1 = false ∧
        FileStep.rm ∈ (getFileSudo env).2.1) ∧
    (env.cpOk = true → env.chmodOk = false →
      "Warning: Failed to make temp file readable" ∈ (getFileSudo env).2.2) ∧
    (env.cpOk = true → env.pullOk = true → env.rmOk = false →
      "Warning: Failed to clean up temp file" ∈ (getFileSudo env).2.2) := by
  obtain ⟨cp, ch, pu, rm⟩ := env
  cases cp <;> cases ch <;> cases pu <;> cases rm <;>
    simp [getFileSudo]

/-- Witness for C7: a failed copy attempts nothing further; a failed pull
after a successful copy still runs the cleanup removal and returns false;
a removal failure after a successful pull is logged as a warning. -/
theorem get_file_sudo_failure_policy_witness :
    getFileSudo ⟨false, true, true, true⟩ =
      (false, [FileStep.cp], ["Error copying file from source"]) ∧
    ((getFileSudo ⟨true, true, false, true⟩).1 = false ∧
      FileStep.rm ∈ (getFileSudo ⟨true, true, false, true⟩).2.1) ∧
    "Warning: Failed to clean up temp file" ∈
      (getFileSudo ⟨true, true, true, false⟩).2.2 :=
  ⟨(get_file_sudo_failure_policy ⟨false, true, true, true⟩).1 rfl,
   (get_file_sudo_failure_policy ⟨true, true, false, true⟩).2.2.1 rfl rfl,
   (get_file_sudo_failure_policy ⟨true, true, true, false⟩).2.2.2.2
     rfl rfl rfl⟩

/-- C9: connect turns a non-zero exit of the info invocation into a false
return, but when the info invocation exits zero and its stdout is not
valid JSON the decode error propagates to the caller instead of becoming
false, so connect is not total over all CLI outputs. -/
theorem connect_raises_on_bad_json
    (n msg : String) (start : StartCall) (hn : n ≠ "") :
    connect (some n) (.ok (.error msg)) start =
      .error (.jsonDecodeError msg) ∧
    ∀ m, connect (some n) (.calledProcessError m) start = .ok false := by
  constructor
  · simp [connect, hn]
  · intro m
    simp [connect, hn]

/-- Witness for C9: with VM name "web", a zero-exit info call whose stdout
fails to parse makes connect raise the decode error. -/
theorem connect_raises_on_bad_json_witness :
    connect (some "web") (.ok (.error "Expecting value")) .ok =
      .error (.jsonDecodeError "Expecting value") :=
  (connect_raises_on_bad_json "web" "Expecting value" .ok (by decide)).1

end PyinfraOrbstack
